import Mathlib

/-!
Verification of src/src/linearSolverLU_batched.cpp.

The file shallowly embeds the two functions of the source,
`gpuLinearSolverBatched` (the public entry point / top-level orchestrator) and
`linearSolverSLU_batched` (the batched solve driver).  The external
collaborators (MAGMA allocators, cuBLAS transfers, stream synchronisation, the
batched LU provider) are opaque: an environment record supplies the integer
result code of every such call and the contents the provider leaves in the
per-matrix device status array.  Each embedded function returns, besides its
integer result, a trace of the calls it issued (allocations, frees with the
state of the freed handle, transfers, pointer-array builds, synchronisations,
provider invocations, error reports), the state of the caller-visible output
pointer cell, and the host mirror of the per-matrix status codes, so that the
ordering, cleanup and aggregation claims can be stated about observables of
the real code.
-/

set_option linter.unusedVariables false

/-- C max macro from the source: `((a) > (b)) ? (a) : (b)`. -/
def cmax (a b : Int) : Int := if a > b then a else b

/-- Modelled from the spec: the MAGMA `magma_roundup` utility (not part of this
repository) used at line 79 for the padded leading dimension, "rounded up to a
hardware-friendly alignment (e.g., multiple of 32)": `magma_ceildiv(x,y) * y`
with C truncated division. -/
def magma_roundup (x y : Int) : Int := (Int.tdiv (x + y - 1) y) * y

/-- Device buffers named in the transfer and pointer-array-construction calls. -/
inductive Buf
  | a
  | b
  | ipiv
deriving DecidableEq

/-- Allocation handles freed by the cleanup block of `gpuLinearSolverBatched`. -/
inductive Handle
  | hInfo
  | dA
  | dB
  | dipiv
  | dinfoArr
  | dAarray
  | dBarray
  | dipivArray
deriving DecidableEq, Fintype

/-- State of one local pointer variable of `gpuLinearSolverBatched`: never
written (indeterminate, as for `d_A`, `d_B`, `dipiv`, `dinfo_array`, `h_info`
which the source declares without initialiser), written with NULL (as for
`dA_array`, `dB_array`, `dipiv_array`), or holding a live allocation. -/
inductive HState
  | uninit
  | nullp
  | alloc
deriving DecidableEq, Fintype

/-- States of the local pointer variables, one field per handle, mirroring the
declarations at lines 63-69 of the source. -/
structure Handles where
  hInfo : HState
  dA : HState
  dB : HState
  dipiv : HState
  dinfoArr : HState
  dAarray : HState
  dBarray : HState
  dipivArray : HState
deriving DecidableEq

/-- Contents of the caller's output pointer cell `*h_X`: whatever it held
before the call (stale), NULL, or the address of the host result buffer that
`magma_smalloc_cpu(h_X, sizeB)` allocated. -/
inductive XCell
  | stale
  | nullp
  | buf
deriving DecidableEq

/-- Observable calls issued by the embedded code, in program order. -/
inductive Event
  | streamCreate : Nat → Event
  | streamDestroy : Nat → Event
  | allocX : Event
  | alloc : Handle → Event
  | free : Handle → HState → Event
  | setMatrix : Buf → Nat → Event
  | setPtr : Buf → Nat → Event
  | sync : Nat → Event
  | decompCall : Event
  | solveCall : Event
  | getVector : Nat → Event
  | getMatrix : Nat → Event
  | report : Int → Event
deriving DecidableEq

/-- Behaviour of the opaque batched LU provider: result code of
`linearDecompSLU_batched`, result code of `linearSolverFactorizedSLU_batched`,
and the per-matrix codes the factorization leaves in `dinfo_array`. -/
structure DriverEnv where
  decompResult : Int
  solveResult : Int
  dinfoAfterDecomp : List Int
deriving DecidableEq

/-- Result of the batched solve driver: the returned `info`, the trace of
calls it issued, and the contents of the per-matrix device status array when
it returns. -/
structure DriverOut where
  info : Int
  trace : List Event
  dinfoMem : List Int
deriving DecidableEq

/-- Embedding of `linearSolverSLU_batched` (source lines 291-348).  `dinfoMem`
is the content of the `dinfo_array` device buffer on entry; the driver never
writes it itself, only the factorization provider does. -/
def linearSolverSLU_batched (env : DriverEnv) (n nrhs ldda lddb batchCount : Int)
    (dinfoMem : List Int) : DriverOut :=
  let info : Int :=
    if n < 0 then -1
    else if nrhs < 0 then -2
    else if ldda < cmax 1 n then -4
    else if lddb < cmax 1 n then -6
    else 0
  if info ≠ 0 then
    { info := info, trace := [Event.report (-info)], dinfoMem := dinfoMem }
  else if n = 0 ∨ nrhs = 0 then
    { info := 0, trace := [], dinfoMem := dinfoMem }
  else if env.decompResult ≠ 0 then
    { info := env.decompResult, trace := [Event.decompCall],
      dinfoMem := env.dinfoAfterDecomp }
  else
    { info := env.solveResult, trace := [Event.decompCall, Event.solveCall],
      dinfoMem := env.dinfoAfterDecomp }

/-- Logical argument list of the solve contract, in the order of the source
signature `linearSolverSLU_batched(n, nrhs, dA_array, ldda, dipiv_array,
dB_array, lddb, dinfo_array, batchCount, queue)`. -/
inductive ArgName
  | n
  | nrhs
  | dA_array
  | ldda
  | dipiv_array
  | dB_array
  | lddb
  | dinfo_array
  | batchCount
  | queue
deriving DecidableEq, BEq

/-- Arguments of the solve contract in declaration order. -/
def driverContractArgs : List ArgName :=
  [ArgName.n, ArgName.nrhs, ArgName.dA_array, ArgName.ldda, ArgName.dipiv_array,
   ArgName.dB_array, ArgName.lddb, ArgName.dinfo_array, ArgName.batchCount,
   ArgName.queue]

/-- One-based position of an argument in the solve contract. -/
def argPos (a : ArgName) : Int := (driverContractArgs.indexOf a : Int) + 1

/-- Behaviour of every fallible collaborator call which `gpuLinearSolverBatched`
makes, in program order (0 means success), plus the initial contents of the
freshly allocated `dinfo_array` device memory (arbitrary: the source never
initialises it) and the provider behaviour. -/
structure GpuEnv where
  allocX : Int
  allocInfo : Int
  allocDA : Int
  allocDB : Int
  allocIpiv : Int
  allocDinfo : Int
  allocArrA : Int
  allocArrB : Int
  allocArrIpiv : Int
  setMatA : Int
  setMatB : Int
  sync0 : Int
  sync1 : Int
  sync2 : Int
  getVec : Int
  getMat : Int
  syncInfo : Int
  syncResult : Int
  dinfoInit : List Int
  driver : DriverEnv
deriving DecidableEq

/-- Result of one `gpuLinearSolverBatched` activation: returned code, trace,
caller-visible output cell `*h_X`, whether the function's local copy of the
`h_X` parameter was nulled before returning (line 199; the parameter is passed
by value, so this is not caller-visible), the value of the local `info`
variable (0 until the driver call assigns it), and the host mirror `h_info`
of the per-matrix status codes ([] until the device-to-host copy fills it). -/
structure GpuOut where
  resCode : Int
  trace : List Event
  callerX : XCell
  localHXNull : Bool
  info : Int
  hInfoHost : List Int
deriving DecidableEq

/-- State of one handle, looked up by name. -/
def handleState (hs : Handles) : Handle → HState
  | Handle.hInfo => hs.hInfo
  | Handle.dA => hs.dA
  | Handle.dB => hs.dB
  | Handle.dipiv => hs.dipiv
  | Handle.dinfoArr => hs.dinfoArr
  | Handle.dAarray => hs.dAarray
  | Handle.dBarray => hs.dBarray
  | Handle.dipivArray => hs.dipivArray

/-- Free calls issued by the `cleanup:` block (source lines 185-196), in source
order, each recording the state the freed handle is in. -/
def cleanupEvents (hs : Handles) : List Event :=
  [Event.free Handle.hInfo hs.hInfo, Event.free Handle.dA hs.dA,
   Event.free Handle.dB hs.dB, Event.free Handle.dipiv hs.dipiv,
   Event.free Handle.dinfoArr hs.dinfoArr, Event.free Handle.dAarray hs.dAarray,
   Event.free Handle.dBarray hs.dBarray, Event.free Handle.dipivArray hs.dipivArray]

/-- Embedding of the `cleanup:` block (source lines 185-202): frees the eight
handles in source order, recording the state each one is in when freed, and
executes `if (resCode != 0) h_X = NULL;` on the local parameter copy. -/
def cleanup (resCode : Int) (hs : Handles) (cell : XCell) (info : Int)
    (hInfoHost : List Int) (tr : List Event) : GpuOut :=
  { resCode := resCode
    trace := tr ++ cleanupEvents hs
    callerX := cell
    localHXNull := decide (resCode ≠ 0)
    info := info
    hInfoHost := hInfoHost }

/-- First non-zero entry of the per-matrix status scan (source lines 169-175). -/
def firstFailure (l : List Int) : Option Int := l.find? (fun x => decide (x ≠ 0))

/-- Embedding of `gpuLinearSolverBatched` (source lines 60-203).  Each fallible
collaborator call takes its result code from the environment; a non-zero code
jumps to cleanup carrying the state accumulated so far, exactly as the
source's `goto cleanup` does.  Successful allocations record an `alloc` event
and move the corresponding handle to `HState.alloc`; a failed host allocation
leaves NULL in its target (documented MAGMA `*_cpu` behaviour), a failed
device allocation leaves the target untouched. -/
def gpuLinearSolverBatched (env : GpuEnv) (n batchCount : Int) : GpuOut :=
  let nrhs : Int := 1
  let ldda := magma_roundup n 32
  let lddb := ldda
  let hs : Handles :=
    { hInfo := HState.uninit, dA := HState.uninit, dB := HState.uninit,
      dipiv := HState.uninit, dinfoArr := HState.uninit,
      dAarray := HState.nullp, dBarray := HState.nullp, dipivArray := HState.nullp }
  let tr : List Event := [Event.streamCreate 0, Event.streamCreate 1, Event.streamCreate 2]
  if env.allocX ≠ 0 then cleanup env.allocX hs XCell.nullp 0 [] tr else
  let cell := XCell.buf
  let tr := tr ++ [Event.allocX]
  if env.allocInfo ≠ 0 then
    cleanup env.allocInfo { hs with hInfo := HState.nullp } cell 0 [] tr else
  let hs := { hs with hInfo := HState.alloc }
  let tr := tr ++ [Event.alloc Handle.hInfo]
  if env.allocDA ≠ 0 then cleanup env.allocDA hs cell 0 [] tr else
  let hs := { hs with dA := HState.alloc }
  let tr := tr ++ [Event.alloc Handle.dA]
  if env.allocDB ≠ 0 then cleanup env.allocDB hs cell 0 [] tr else
  let hs := { hs with dB := HState.alloc }
  let tr := tr ++ [Event.alloc Handle.dB]
  if env.allocIpiv ≠ 0 then cleanup env.allocIpiv hs cell 0 [] tr else
  let hs := { hs with dipiv := HState.alloc }
  let tr := tr ++ [Event.alloc Handle.dipiv]
  if env.allocDinfo ≠ 0 then cleanup env.allocDinfo hs cell 0 [] tr else
  let hs := { hs with dinfoArr := HState.alloc }
  let tr := tr ++ [Event.alloc Handle.dinfoArr]
  if env.allocArrA ≠ 0 then cleanup env.allocArrA hs cell 0 [] tr else
  let hs := { hs with dAarray := HState.alloc }
  let tr := tr ++ [Event.alloc Handle.dAarray]
  if env.allocArrB ≠ 0 then cleanup env.allocArrB hs cell 0 [] tr else
  let hs := { hs with dBarray := HState.alloc }
  let tr := tr ++ [Event.alloc Handle.dBarray]
  if env.allocArrIpiv ≠ 0 then cleanup env.allocArrIpiv hs cell 0 [] tr else
  let hs := { hs with dipivArray := HState.alloc }
  let tr := tr ++ [Event.alloc Handle.dipivArray]
  if env.setMatA ≠ 0 then cleanup env.setMatA hs cell 0 [] tr else
  let tr := tr ++ [Event.setMatrix Buf.a 0]
  if env.setMatB ≠ 0 then cleanup env.setMatB hs cell 0 [] tr else
  let tr := tr ++ [Event.setMatrix Buf.b 1]
  let tr := tr ++ [Event.setPtr Buf.ipiv 2, Event.setPtr Buf.a 0, Event.setPtr Buf.b 1]
  if env.sync0 ≠ 0 then cleanup env.sync0 hs cell 0 [] tr else
  let tr := tr ++ [Event.sync 0]
  if env.sync1 ≠ 0 then cleanup env.sync1 hs cell 0 [] tr else
  let tr := tr ++ [Event.sync 1]
  if env.sync2 ≠ 0 then cleanup env.sync2 hs cell 0 [] tr else
  let tr := tr ++ [Event.sync 2]
  let dOut := linearSolverSLU_batched env.driver n nrhs ldda lddb batchCount env.dinfoInit
  let info := dOut.info
  let tr := tr ++ dOut.trace
  if env.getVec ≠ 0 then cleanup env.getVec hs cell info [] tr else
  let hInfoHost := dOut.dinfoMem
  let tr := tr ++ [Event.getVector 0]
  if env.getMat ≠ 0 then cleanup env.getMat hs cell info hInfoHost tr else
  let tr := tr ++ [Event.getMatrix 1]
  if env.syncInfo ≠ 0 then cleanup env.syncInfo hs cell info hInfoHost tr else
  let tr := tr ++ [Event.sync 0]
  if firstFailure hInfoHost ≠ none then
    cleanup ((firstFailure hInfoHost).getD 0) hs cell info hInfoHost tr
  else
  if info ≠ 0 then cleanup info hs cell info hInfoHost tr else
  if env.syncResult ≠ 0 then cleanup env.syncResult hs cell info hInfoHost tr else
  let tr := tr ++ [Event.sync 1]
  cleanup 0 hs cell info hInfoHost tr

/-- Environment in which every collaborator call succeeds, the device status
memory reads zero and the provider succeeds on the one-matrix batch. -/
def envAllOk : GpuEnv :=
  { allocX := 0, allocInfo := 0, allocDA := 0, allocDB := 0, allocIpiv := 0,
    allocDinfo := 0, allocArrA := 0, allocArrB := 0, allocArrIpiv := 0,
    setMatA := 0, setMatB := 0, sync0 := 0, sync1 := 0, sync2 := 0,
    getVec := 0, getMat := 0, syncInfo := 0, syncResult := 0,
    dinfoInit := [0],
    driver := { decompResult := 0, solveResult := 0, dinfoAfterDecomp := [0] } }

/-- Like `envAllOk` but the uninitialised device status memory happens to hold
the non-zero value 7. -/
def envMasked : GpuEnv := { envAllOk with dinfoInit := [7] }

/-- Like `envAllOk` but the factorization marks the single matrix singular at
pivot row 2 in the per-matrix status array while both provider calls return 0
(the MAGMA providers report singularity only per matrix). -/
def envSingular : GpuEnv :=
  { envAllOk with driver := { decompResult := 0, solveResult := 0, dinfoAfterDecomp := [2] } }

/-- Like `envAllOk` but the very first allocation, `magma_smalloc_cpu(h_X,
sizeB)`, fails with a host-allocation error code. -/
def envAllocXFail : GpuEnv := { envAllOk with allocX := -112 }

/-- Every collaborator call of `gpuLinearSolverBatched` succeeds. -/
def opsOk (env : GpuEnv) : Prop :=
  env.allocX = 0 ∧ env.allocInfo = 0 ∧ env.allocDA = 0 ∧ env.allocDB = 0 ∧
  env.allocIpiv = 0 ∧ env.allocDinfo = 0 ∧ env.allocArrA = 0 ∧ env.allocArrB = 0 ∧
  env.allocArrIpiv = 0 ∧ env.setMatA = 0 ∧ env.setMatB = 0 ∧ env.sync0 = 0 ∧
  env.sync1 = 0 ∧ env.sync2 = 0 ∧ env.getVec = 0 ∧ env.getMat = 0 ∧
  env.syncInfo = 0 ∧ env.syncResult = 0

/-- Recogniser for stream destruction events. -/
def isStreamDestroy : Event → Bool
  | Event.streamDestroy _ => true
  | _ => false

/-- Recogniser for free events. -/
def isFreeEvent : Event → Bool
  | Event.free _ _ => true
  | _ => false

/-- Recogniser for the events that build or fill the three device arrays the
batched compute consumes: transfers and pointer-array constructions. -/
def isArrayBuild : Event → Bool
  | Event.setPtr _ _ => true
  | Event.setMatrix _ _ => true
  | _ => false

/-- Recogniser for the free events of one given handle. -/
def freesHandle (hd : Handle) : Event → Bool
  | Event.free h _ => decide (h = hd)
  | _ => false

/-- Trace prefix issued before the batched compute whenever the compute step is
reached: stream creation, the nine allocations, both transfers, the three
pointer-array builds and the three pre-compute synchronisations. -/
def computePre : List Event :=
  [Event.streamCreate 0, Event.streamCreate 1, Event.streamCreate 2,
   Event.allocX, Event.alloc Handle.hInfo, Event.alloc Handle.dA,
   Event.alloc Handle.dB, Event.alloc Handle.dipiv, Event.alloc Handle.dinfoArr,
   Event.alloc Handle.dAarray, Event.alloc Handle.dBarray, Event.alloc Handle.dipivArray,
   Event.setMatrix Buf.a 0, Event.setMatrix Buf.b 1,
   Event.setPtr Buf.ipiv 2, Event.setPtr Buf.a 0, Event.setPtr Buf.b 1,
   Event.sync 0, Event.sync 1, Event.sync 2]

/-- Events of a trace that precede the batched compute invocation. -/
def beforeCompute (tr : List Event) : List Event :=
  tr.takeWhile (fun e => decide (e ≠ Event.decompCall))

/-- First violated parameter check in the fixed order n, nrhs, ldda, lddb,
with its error code. -/
def firstViolation (n nrhs ldda lddb : Int) : Option Int :=
  (([(decide (n < 0), (-1 : Int)), (decide (nrhs < 0), -2),
     (decide (ldda < cmax 1 n), -4), (decide (lddb < cmax 1 n), -6)].find?
    (fun p => p.1)).map (fun p => p.2))

/-! ### Driver evaluation lemmas

One lemma per control-flow exit of `linearSolverSLU_batched`, shared by the
claim theorems below. -/

theorem driver_eq_neg1 (env : DriverEnv) (n nrhs ldda lddb bc : Int) (mem : List Int)
    (h1 : n < 0) :
    linearSolverSLU_batched env n nrhs ldda lddb bc mem =
      { info := -1, trace := [Event.report 1], dinfoMem := mem } := by
  simp [linearSolverSLU_batched, h1]

theorem driver_eq_neg2 (env : DriverEnv) (n nrhs ldda lddb bc : Int) (mem : List Int)
    (h1 : ¬ n < 0) (h2 : nrhs < 0) :
    linearSolverSLU_batched env n nrhs ldda lddb bc mem =
      { info := -2, trace := [Event.report 2], dinfoMem := mem } := by
  simp [linearSolverSLU_batched, h1, h2]

theorem driver_eq_neg4 (env : DriverEnv) (n nrhs ldda lddb bc : Int) (mem : List Int)
    (h1 : ¬ n < 0) (h2 : ¬ nrhs < 0) (h3 : ldda < cmax 1 n) :
    linearSolverSLU_batched env n nrhs ldda lddb bc mem =
      { info := -4, trace := [Event.report 4], dinfoMem := mem } := by
  simp [linearSolverSLU_batched, h1, h2, h3]

theorem driver_eq_neg6 (env : DriverEnv) (n nrhs ldda lddb bc : Int) (mem : List Int)
    (h1 : ¬ n < 0) (h2 : ¬ nrhs < 0) (h3 : ¬ ldda < cmax 1 n) (h4 : lddb < cmax 1 n) :
    linearSolverSLU_batched env n nrhs ldda lddb bc mem =
      { info := -6, trace := [Event.report 6], dinfoMem := mem } := by
  simp [linearSolverSLU_batched, h1, h2, h3, h4]

theorem driver_eq_quick (env : DriverEnv) (n nrhs ldda lddb bc : Int) (mem : List Int)
    (h1 : ¬ n < 0) (h2 : ¬ nrhs < 0) (h3 : ¬ ldda < cmax 1 n) (h4 : ¬ lddb < cmax 1 n)
    (h5 : n = 0 ∨ nrhs = 0) :
    linearSolverSLU_batched env n nrhs ldda lddb bc mem =
      { info := 0, trace := [], dinfoMem := mem } := by
  simp [linearSolverSLU_batched, h1, h2, h3, h4, h5]

theorem driver_eq_decomp (env : DriverEnv) (n nrhs ldda lddb bc : Int) (mem : List Int)
    (h1 : 0 < n) (h2 : 0 < nrhs) (h3 : ¬ ldda < cmax 1 n) (h4 : ¬ lddb < cmax 1 n)
    (hd : env.decompResult ≠ 0) :
    linearSolverSLU_batched env n nrhs ldda lddb bc mem =
      { info := env.decompResult, trace := [Event.decompCall],
        dinfoMem := env.dinfoAfterDecomp } := by
  have h1' : ¬ n < 0 := by omega
  have h2' : ¬ nrhs < 0 := by omega
  have h5 : ¬ (n = 0 ∨ nrhs = 0) := by omega
  simp [linearSolverSLU_batched, h1', h2', h3, h4, h5, hd]

theorem driver_eq_solve (env : DriverEnv) (n nrhs ldda lddb bc : Int) (mem : List Int)
    (h1 : 0 < n) (h2 : 0 < nrhs) (h3 : ¬ ldda < cmax 1 n) (h4 : ¬ lddb < cmax 1 n)
    (hd : env.decompResult = 0) :
    linearSolverSLU_batched env n nrhs ldda lddb bc mem =
      { info := env.solveResult, trace := [Event.decompCall, Event.solveCall],
        dinfoMem := env.dinfoAfterDecomp } := by
  have h1' : ¬ n < 0 := by omega
  have h2' : ¬ nrhs < 0 := by omega
  have h5 : ¬ (n = 0 ∨ nrhs = 0) := by omega
  simp [linearSolverSLU_batched, h1', h2', h3, h4, h5, hd]

/-! ### Claim C2 -/

/-- Claim C2: the batched solve driver validates parameters fast, before any
device work.  For every input, n < 0 returns -1; otherwise nrhs < 0 returns
-2; otherwise ldda < max(1,n) returns -4; otherwise lddb < max(1,n) returns
-6.  In each case the trace holds exactly the `utils_reportError` call (with
the positive mirror of the code, as the source passes `-(info)`), so no
provider call, allocation or other device work happens, and the device status
memory is untouched. -/
theorem driver_validation (env : DriverEnv) (n nrhs ldda lddb bc : Int) (mem : List Int) :
    (n < 0 →
      linearSolverSLU_batched env n nrhs ldda lddb bc mem =
        { info := -1, trace := [Event.report 1], dinfoMem := mem }) ∧
    (¬ n < 0 → nrhs < 0 →
      linearSolverSLU_batched env n nrhs ldda lddb bc mem =
        { info := -2, trace := [Event.report 2], dinfoMem := mem }) ∧
    (¬ n < 0 → ¬ nrhs < 0 → ldda < cmax 1 n →
      linearSolverSLU_batched env n nrhs ldda lddb bc mem =
        { info := -4, trace := [Event.report 4], dinfoMem := mem }) ∧
    (¬ n < 0 → ¬ nrhs < 0 → ¬ ldda < cmax 1 n → lddb < cmax 1 n →
      linearSolverSLU_batched env n nrhs ldda lddb bc mem =
        { info := -6, trace := [Event.report 6], dinfoMem := mem }) :=
  ⟨fun h1 => driver_eq_neg1 env n nrhs ldda lddb bc mem h1,
   fun h1 h2 => driver_eq_neg2 env n nrhs ldda lddb bc mem h1 h2,
   fun h1 h2 h3 => driver_eq_neg4 env n nrhs ldda lddb bc mem h1 h2 h3,
   fun h1 h2 h3 h4 => driver_eq_neg6 env n nrhs ldda lddb bc mem h1 h2 h3 h4⟩

/-- Claim C2 witness: the four validation exits evaluated on concrete inputs. -/
theorem driver_validation_witness :
    (linearSolverSLU_batched ⟨0, 0, []⟩ (-1) 0 0 0 1 [] =
      { info := -1, trace := [Event.report 1], dinfoMem := [] }) ∧
    (linearSolverSLU_batched ⟨0, 0, []⟩ 0 (-1) 1 1 1 [] =
      { info := -2, trace := [Event.report 2], dinfoMem := [] }) ∧
    (linearSolverSLU_batched ⟨0, 0, []⟩ 2 1 1 9 1 [] =
      { info := -4, trace := [Event.report 4], dinfoMem := [] }) ∧
    (linearSolverSLU_batched ⟨0, 0, []⟩ 2 1 2 1 1 [] =
      { info := -6, trace := [Event.report 6], dinfoMem := [] }) :=
  ⟨(driver_validation ⟨0, 0, []⟩ (-1) 0 0 0 1 []).1 (by decide),
   (driver_validation ⟨0, 0, []⟩ 0 (-1) 1 1 1 []).2.1 (by decide) (by decide),
   (driver_validation ⟨0, 0, []⟩ 2 1 1 9 1 []).2.2.1 (by decide) (by decide) (by decide),
   (driver_validation ⟨0, 0, []⟩ 2 1 2 1 1 []).2.2.2 (by decide) (by decide) (by decide)
     (by decide)⟩

/-! ### Claim C4 -/

/-- Claim C4: once the main path is reached, a non-success code from the
factorization step is returned immediately and the triangular-solve step is
skipped (the trace holds the factorization call only); when the factorization
step succeeds, the driver proceeds to the solve step and returns its code. -/
theorem factor_gate (env : DriverEnv) (n nrhs ldda lddb bc : Int) (mem : List Int)
    (h1 : 0 < n) (h2 : 0 < nrhs) (h3 : ¬ ldda < cmax 1 n) (h4 : ¬ lddb < cmax 1 n) :
    (env.decompResult ≠ 0 →
      linearSolverSLU_batched env n nrhs ldda lddb bc mem =
        { info := env.decompResult, trace := [Event.decompCall],
          dinfoMem := env.dinfoAfterDecomp }) ∧
    (env.decompResult = 0 →
      linearSolverSLU_batched env n nrhs ldda lddb bc mem =
        { info := env.solveResult, trace := [Event.decompCall, Event.solveCall],
          dinfoMem := env.dinfoAfterDecomp }) :=
  ⟨fun hd => driver_eq_decomp env n nrhs ldda lddb bc mem h1 h2 h3 h4 hd,
   fun hd => driver_eq_solve env n nrhs ldda lddb bc mem h1 h2 h3 h4 hd⟩

/-- Claim C4 witness: a singular factorization (provider code 3) is returned
with no solve call, and a successful factorization is followed by the solve
step whose code 0 is returned. -/
theorem factor_gate_witness :
    (linearSolverSLU_batched ⟨3, 0, [3]⟩ 1 1 1 1 1 [0] =
      { info := 3, trace := [Event.decompCall], dinfoMem := [3] }) ∧
    (linearSolverSLU_batched ⟨0, 0, [0]⟩ 1 1 1 1 1 [0] =
      { info := 0, trace := [Event.decompCall, Event.solveCall], dinfoMem := [0] }) :=
  ⟨(factor_gate ⟨3, 0, [3]⟩ 1 1 1 1 1 [0] (by decide) (by decide) (by decide)
      (by decide)).1 (by decide),
   (factor_gate ⟨0, 0, [0]⟩ 1 1 1 1 1 [0] (by decide) (by decide) (by decide)
      (by decide)).2 (by decide)⟩

/-! ### Claim C7 -/

/-- Claim C7 counterexample: with n = 1, nrhs = 1, ldda = 1 and the invalid
lddb = 0 the driver returns -6, yet lddb is the seventh logical argument of
the solve contract, so the fixed convention "-k identifies the k-th argument"
would require -7 for an invalid leading dimension of B. -/
theorem status_convention_cex :
    (linearSolverSLU_batched ⟨0, 0, []⟩ 1 1 1 0 1 []).info = -6 ∧
    argPos ArgName.lddb = 7 ∧ ((-6 : Int) ≠ -7) := by decide

/-- Claim C7 as amended: the negative codes -1, -2 and -4 match the contract
positions of n, nrhs and ldda, but an invalid lddb yields -6, the position of
the dB_array argument rather than lddb's own position 7; positive return
values are not produced by the driver itself but passed through unchanged from
the provider's factorization or solve step. -/
theorem status_convention (env : DriverEnv) (n nrhs ldda lddb bc : Int) (mem : List Int) :
    (n < 0 →
      (linearSolverSLU_batched env n nrhs ldda lddb bc mem).info = -argPos ArgName.n) ∧
    (¬ n < 0 → nrhs < 0 →
      (linearSolverSLU_batched env n nrhs ldda lddb bc mem).info = -argPos ArgName.nrhs) ∧
    (¬ n < 0 → ¬ nrhs < 0 → ldda < cmax 1 n →
      (linearSolverSLU_batched env n nrhs ldda lddb bc mem).info = -argPos ArgName.ldda) ∧
    (¬ n < 0 → ¬ nrhs < 0 → ¬ ldda < cmax 1 n → lddb < cmax 1 n →
      (linearSolverSLU_batched env n nrhs ldda lddb bc mem).info =
        -argPos ArgName.dB_array) ∧
    (0 < (linearSolverSLU_batched env n nrhs ldda lddb bc mem).info →
      (linearSolverSLU_batched env n nrhs ldda lddb bc mem).info = env.decompResult ∨
      (linearSolverSLU_batched env n nrhs ldda lddb bc mem).info = env.solveResult) := by
  refine ⟨fun h1 => ?_, fun h1 h2 => ?_, fun h1 h2 h3 => ?_, fun h1 h2 h3 h4 => ?_, ?_⟩
  · rw [driver_eq_neg1 env n nrhs ldda lddb bc mem h1]; rfl
  · rw [driver_eq_neg2 env n nrhs ldda lddb bc mem h1 h2]; rfl
  · rw [driver_eq_neg4 env n nrhs ldda lddb bc mem h1 h2 h3]; rfl
  · rw [driver_eq_neg6 env n nrhs ldda lddb bc mem h1 h2 h3 h4]; rfl
  · intro hpos
    by_cases h1 : n < 0
    · rw [driver_eq_neg1 env n nrhs ldda lddb bc mem h1] at hpos; simp at hpos
    by_cases h2 : nrhs < 0
    · rw [driver_eq_neg2 env n nrhs ldda lddb bc mem h1 h2] at hpos; simp at hpos
    by_cases h3 : ldda < cmax 1 n
    · rw [driver_eq_neg4 env n nrhs ldda lddb bc mem h1 h2 h3] at hpos; simp at hpos
    by_cases h4 : lddb < cmax 1 n
    · rw [driver_eq_neg6 env n nrhs ldda lddb bc mem h1 h2 h3 h4] at hpos; simp at hpos
    by_cases h5 : n = 0 ∨ nrhs = 0
    · rw [driver_eq_quick env n nrhs ldda lddb bc mem h1 h2 h3 h4 h5] at hpos; simp at hpos
    have h1' : 0 < n := by omega
    have h2' : 0 < nrhs := by omega
    by_cases hd : env.decompResult = 0
    · rw [driver_eq_solve env n nrhs ldda lddb bc mem h1' h2' h3 h4 hd]; right; rfl
    · rw [driver_eq_decomp env n nrhs ldda lddb bc mem h1' h2' h3 h4 hd]; left; rfl

/-- Claim C7 amended witness: the -1 and -6 cases at concrete inputs and a
positive pass-through from a provider factorization code 5. -/
theorem status_convention_witness :
    ((linearSolverSLU_batched ⟨0, 0, []⟩ (-3) 1 1 1 1 []).info = -argPos ArgName.n) ∧
    ((linearSolverSLU_batched ⟨0, 0, []⟩ 3 1 3 2 1 []).info = -argPos ArgName.dB_array) ∧
    ((linearSolverSLU_batched ⟨5, 0, []⟩ 1 1 1 1 1 []).info = 5 ∨
     (linearSolverSLU_batched ⟨5, 0, []⟩ 1 1 1 1 1 []).info = 0) :=
  ⟨(status_convention ⟨0, 0, []⟩ (-3) 1 1 1 1 []).1 (by decide),
   (status_convention ⟨0, 0, []⟩ 3 1 3 2 1 []).2.2.2.1 (by decide) (by decide) (by decide)
     (by decide),
   (status_convention ⟨5, 0, []⟩ 1 1 1 1 1 []).2.2.2.2 (by decide)⟩

/-! ### Claim C10 -/

/-- Claim C10 counterexample: for n = -1, nrhs = -1, ldda = 5, lddb = 0 both
nrhs < 0 and lddb < max(1,n) hold, yet the driver returns -1 (the n check
fires first), not the -2 the claim's second example promises for any such
input. -/
theorem driver_priority_cex :
    ((-1 : Int) < 0 ∧ (0 : Int) < cmax 1 (-1)) ∧
    (linearSolverSLU_batched ⟨0, 0, []⟩ (-1) (-1) 5 0 1 []).info = -1 ∧
    ((-1 : Int) ≠ -2) := by decide

/-- Claim C10 as amended: when several parameters are invalid at once the
driver returns the code of the first violated check in the fixed order n,
nrhs, ldda, lddb; in particular n < 0 and nrhs < 0 give -1, and nrhs < 0 with
lddb < max(1,n) gives -2 provided the n check did not already fire (n >= 0). -/
theorem driver_priority (env : DriverEnv) (n nrhs ldda lddb bc : Int) (mem : List Int) :
    (∀ c, firstViolation n nrhs ldda lddb = some c →
      (linearSolverSLU_batched env n nrhs ldda lddb bc mem).info = c) ∧
    (n < 0 ∧ nrhs < 0 →
      (linearSolverSLU_batched env n nrhs ldda lddb bc mem).info = -1) ∧
    (¬ n < 0 ∧ nrhs < 0 ∧ lddb < cmax 1 n →
      (linearSolverSLU_batched env n nrhs ldda lddb bc mem).info = -2) := by
  by_cases h1 : n < 0
  · rw [driver_eq_neg1 env n nrhs ldda lddb bc mem h1]
    refine ⟨fun c hc => ?_, fun _ => rfl, fun h => absurd h1 h.1⟩
    simp only [firstViolation, h1] at hc
    simp at hc ⊢
    omega
  by_cases h2 : nrhs < 0
  · rw [driver_eq_neg2 env n nrhs ldda lddb bc mem h1 h2]
    refine ⟨fun c hc => ?_, fun h => absurd h.1 h1, fun _ => rfl⟩
    simp only [firstViolation] at hc
    simp [h1, h2] at hc
    simp
    omega
  by_cases h3 : ldda < cmax 1 n
  · rw [driver_eq_neg4 env n nrhs ldda lddb bc mem h1 h2 h3]
    refine ⟨fun c hc => ?_, fun h => absurd h.1 h1, fun h => absurd h.2.1 h2⟩
    simp only [firstViolation] at hc
    simp [h1, h2, h3] at hc
    simp
    omega
  by_cases h4 : lddb < cmax 1 n
  · rw [driver_eq_neg6 env n nrhs ldda lddb bc mem h1 h2 h3 h4]
    refine ⟨fun c hc => ?_, fun h => absurd h.1 h1, fun h => absurd h.2.1 h2⟩
    simp only [firstViolation] at hc
    simp [h1, h2, h3, h4] at hc
    simp
    omega
  · refine ⟨fun c hc => ?_, fun h => absurd h.1 h1, fun h => absurd h.2.2 h4⟩
    simp only [firstViolation] at hc
    simp [h1, h2, h3, h4] at hc

/-- Claim C10 amended witness: with every check violated the first code -1 is
returned, and the two example shapes at concrete inputs. -/
theorem driver_priority_witness :
    (firstViolation (-1) (-1) 0 0 = some (-1) ∧
      (linearSolverSLU_batched ⟨0, 0, []⟩ (-1) (-1) 0 0 1 []).info = -1) ∧
    ((linearSolverSLU_batched ⟨0, 0, []⟩ (-2) (-7) 9 9 1 []).info = -1) ∧
    ((linearSolverSLU_batched ⟨0, 0, []⟩ 3 (-1) 9 1 1 []).info = -2) :=
  ⟨⟨by decide, (driver_priority ⟨0, 0, []⟩ (-1) (-1) 0 0 1 []).1 (-1) (by decide)⟩,
   (driver_priority ⟨0, 0, []⟩ (-2) (-7) 9 9 1 []).2.1 (by decide),
   (driver_priority ⟨0, 0, []⟩ 3 (-1) 9 1 1 []).2.2 (by decide)⟩


/-! ### Claim C3 -/

/-- Claim C3 (the code contradicts it): a call of the public entry point with
N = 0 does not return 0, even with every collaborator call succeeding and the
device status memory zeroed.  The entry point derives ldda = magma_roundup 0 32
= 0, so the driver's ldda < max(1,N) check fires and the call returns -4; the
caller's output pointer cell has moreover been written with the freshly
allocated result buffer, so the output is mutated. -/
theorem quick_return_bug :
    (gpuLinearSolverBatched envAllOk 0 1).resCode = -4 ∧
    (gpuLinearSolverBatched envAllOk 0 1).callerX = XCell.buf ∧
    XCell.buf ≠ XCell.stale := by decide

/-! ### Claim C5 -/

/-- Claim C5 (the code contradicts it): on a failing return (here the
singularity code 2 found in the per-matrix status scan) the caller-visible
output cell still holds the allocated result buffer.  The source's
`if (resCode != 0) h_X = NULL;` nulls only the function's by-value copy of the
`h_X` parameter (recorded in `localHXNull`), never the caller's pointer. -/
theorem invalidation_bug :
    (gpuLinearSolverBatched envSingular 1 1).resCode = 2 ∧
    (gpuLinearSolverBatched envSingular 1 1).callerX = XCell.buf ∧
    (gpuLinearSolverBatched envSingular 1 1).localHXNull = true ∧
    XCell.buf ≠ XCell.nullp := by decide

/-! ### Claim C6 -/

/-- Claim C6 (the code contradicts its evident intent): when the very first
allocation fails, the remaining allocations are indeed short-circuited (no
alloc event for d_A), but teardown then frees h_info and d_A while they are
still uninitialised locals — only the three pointer-array handles were
null-initialised (dA_array is freed in the null state).  The claim's
"every handle not yet allocated is in a null state when teardown runs" fails. -/
theorem teardown_uninit_bug :
    (gpuLinearSolverBatched envAllocXFail 1 1).resCode = -112 ∧
    Event.alloc Handle.dA ∉ (gpuLinearSolverBatched envAllocXFail 1 1).trace ∧
    Event.free Handle.hInfo HState.uninit ∈ (gpuLinearSolverBatched envAllocXFail 1 1).trace ∧
    Event.free Handle.dA HState.uninit ∈ (gpuLinearSolverBatched envAllocXFail 1 1).trace ∧
    Event.free Handle.dAarray HState.nullp ∈ (gpuLinearSolverBatched envAllocXFail 1 1).trace ∧
    HState.uninit ≠ HState.nullp := by decide

/-! ### Claim C1 -/

/-- Claim C1 counterexample: with n = -1 the driver reports the parameter
error -1 (recorded in the local info variable), yet because validation leaves
the device status array unwritten, the status scan reads the arbitrary prior
contents 7 first and the call returns the positive 7 — the negative
parameter-error code does not dominate, and the code returned is not the first
one encountered. -/
theorem aggregate_masks_validation_cex :
    (gpuLinearSolverBatched envMasked (-1) 1).info = -1 ∧
    (gpuLinearSolverBatched envMasked (-1) 1).resCode = 7 ∧
    ¬ ((7 : Int) < 0) := by decide

/-! ### Claim C9 -/

/-- Claim C9 counterexample: a fully successful call creates the three streams
and destroys none of them, so not every resource acquired during a call is
released. -/
theorem no_stream_release_cex :
    (gpuLinearSolverBatched envAllOk 1 1).resCode = 0 ∧
    Event.streamCreate 0 ∈ (gpuLinearSolverBatched envAllOk 1 1).trace ∧
    Event.streamCreate 1 ∈ (gpuLinearSolverBatched envAllOk 1 1).trace ∧
    Event.streamCreate 2 ∈ (gpuLinearSolverBatched envAllOk 1 1).trace ∧
    List.all (gpuLinearSolverBatched envAllOk 1 1).trace
      (fun e => !isStreamDestroy e) = true := by decide

/-- Claim C1 as amended: assuming every collaborator call succeeds, the
aggregate integer returned by gpuLinearSolverBatched is 0 exactly when every
per-matrix status is 0 and the driver's code is 0; otherwise it is the first
non-zero entry found by the per-matrix status scan if the scan finds one, and
only failing that the driver's (e.g. parameter-validation) code.  Any single
positive per-matrix singularity code therefore fails the whole call, but a
negative validation code is surfaced only when the status scan — which runs
first and reads whatever the (possibly never written) device status array
holds — finds nothing. -/
theorem aggregate_result (env : GpuEnv) (n bc : Int) (h : opsOk env) :
    ((gpuLinearSolverBatched env n bc).resCode =
      ((firstFailure (gpuLinearSolverBatched env n bc).hInfoHost).getD
        (gpuLinearSolverBatched env n bc).info)) ∧
    ((gpuLinearSolverBatched env n bc).resCode = 0 ↔
      ((∀ x ∈ (gpuLinearSolverBatched env n bc).hInfoHost, x = 0) ∧
        (gpuLinearSolverBatched env n bc).info = 0)) := by
  obtain ⟨h1, h2, h3, h4, h5, h6, h7, h8, h9, h10, h11, h12, h13, h14, h15, h16, h17, h18⟩ := h
  simp only [gpuLinearSolverBatched, h1, h2, h3, h4, h5, h6, h7, h8, h9, h10, h11, h12, h13,
    h14, h15, h16, h17, h18, ne_eq, not_true_eq_false, if_false, ite_false, not_false_iff]
  split_ifs with gScan gInfo
  · -- fully successful path: scan clean and driver code 0
    simp only [cleanup, firstFailure] at gScan ⊢
    rw [gScan]
    simp only [Option.getD_none]
    refine ⟨gInfo.symm, ?_⟩
    simp only [gInfo, and_true, true_iff]
    intro x hx
    have := List.find?_eq_none.mp gScan x hx
    simpa using this
  · -- scan clean, driver code non-zero surfaced
    simp only [cleanup, firstFailure] at gScan ⊢
    rw [gScan]
    simp only [Option.getD_none]
    refine ⟨trivial, ?_⟩
    constructor
    · intro h0; exact absurd h0 gInfo
    · rintro ⟨-, h0⟩; exact absurd h0 gInfo
  · -- status scan found a non-zero code
    obtain ⟨c, hc⟩ := Option.ne_none_iff_exists'.mp gScan
    have hcne : c ≠ 0 := by
      have := List.find?_some hc
      simpa using this
    have hcmem := List.mem_of_find?_eq_some hc
    simp only [cleanup, firstFailure] at hc ⊢
    rw [hc]
    simp only [Option.getD_some]
    refine ⟨trivial, ?_⟩
    constructor
    · intro h0; exact absurd h0 hcne
    · rintro ⟨hall, -⟩; exact absurd (hall c hcmem) hcne

/-- Claim C1 amended witness: the aggregate formula evaluated in the
all-success environment on a batch of one. -/
theorem aggregate_result_witness :
    opsOk envAllOk ∧
    (((gpuLinearSolverBatched envAllOk 2 1).resCode =
      ((firstFailure (gpuLinearSolverBatched envAllOk 2 1).hInfoHost).getD
        (gpuLinearSolverBatched envAllOk 2 1).info)) ∧
     ((gpuLinearSolverBatched envAllOk 2 1).resCode = 0 ↔
      ((∀ x ∈ (gpuLinearSolverBatched envAllOk 2 1).hInfoHost, x = 0) ∧
        (gpuLinearSolverBatched envAllOk 2 1).info = 0))) :=
  ⟨⟨rfl, rfl, rfl, rfl, rfl, rfl, rfl, rfl, rfl, rfl, rfl, rfl, rfl, rfl, rfl, rfl, rfl, rfl⟩,
   aggregate_result envAllOk 2 1
     ⟨rfl, rfl, rfl, rfl, rfl, rfl, rfl, rfl, rfl, rfl, rfl, rfl, rfl, rfl, rfl, rfl, rfl, rfl⟩⟩

/-- Driver traces contain no stream administration, no frees and no
allocations: the driver performs no resource management of its own. -/
theorem driver_trace_clean (env : DriverEnv) (n nrhs ldda lddb bc : Int) (mem : List Int) :
    List.all (linearSolverSLU_batched env n nrhs ldda lddb bc mem).trace
      (fun e => !isStreamDestroy e) = true ∧
    (∀ hd, List.countP (freesHandle hd)
      (linearSolverSLU_batched env n nrhs ldda lddb bc mem).trace = 0) ∧
    (∀ hd, Event.alloc hd ∉ (linearSolverSLU_batched env n nrhs ldda lddb bc mem).trace) := by
  unfold linearSolverSLU_batched
  split_ifs <;>
    exact ⟨by simp [isStreamDestroy],
           fun hd => by simp [freesHandle, List.countP, List.countP.go],
           fun hd => by simp⟩
/-- The trace of one driver call is the report of a validation failure, empty
(quick return), the factorization call alone, or factorization followed by
solve. -/
theorem driver_trace_cases (env : DriverEnv) (n nrhs ldda lddb bc : Int) (mem : List Int) :
    (∃ k, (linearSolverSLU_batched env n nrhs ldda lddb bc mem).trace = [Event.report k]) ∨
    (linearSolverSLU_batched env n nrhs ldda lddb bc mem).trace = [] ∨
    (linearSolverSLU_batched env n nrhs ldda lddb bc mem).trace = [Event.decompCall] ∨
    (linearSolverSLU_batched env n nrhs ldda lddb bc mem).trace =
      [Event.decompCall, Event.solveCall] := by
  unfold linearSolverSLU_batched
  split_ifs <;>
    first
      | exact Or.inl ⟨_, rfl⟩
      | exact Or.inr (Or.inl rfl)
      | exact Or.inr (Or.inr (Or.inl rfl))
      | exact Or.inr (Or.inr (Or.inr rfl))

/-- Every cleanup block frees exactly one handle of each name. -/
theorem countP_cleanupEvents (hd : Handle) (hs : Handles) :
    List.countP (freesHandle hd) (cleanupEvents hs) = 1 := by
  cases hd <;> simp [cleanupEvents, freesHandle, List.countP_cons, List.countP_nil]

/-- The cleanup block frees each handle in the state it is in at teardown. -/
theorem free_state_mem_cleanupEvents (hd : Handle) (hs : Handles) :
    Event.free hd (handleState hs hd) ∈ cleanupEvents hs := by
  cases hd <;> simp [cleanupEvents, handleState]

/-- The cleanup block performs no allocation. -/
theorem alloc_not_mem_cleanupEvents (hd : Handle) (hs : Handles) :
    Event.alloc hd ∉ cleanupEvents hs := by
  simp [cleanupEvents]

/-- The cleanup block performs no compute call. -/
theorem decompCall_not_mem_cleanupEvents (hs : Handles) :
    Event.decompCall ∉ cleanupEvents hs := by
  simp [cleanupEvents]

/-- The cleanup block destroys no stream. -/
theorem cleanupEvents_all_not_destroy (hs : Handles) :
    List.all (cleanupEvents hs) (fun e => !isStreamDestroy e) = true := by
  simp [cleanupEvents, isStreamDestroy]

/-- The cleanup block issues no transfer or pointer-array construction. -/
theorem cleanupEvents_all_not_build (hs : Handles) :
    List.all (cleanupEvents hs) (fun e => !isArrayBuild e) = true := by
  simp [cleanupEvents, isArrayBuild]

/-- An event freeing a given handle is a free event. -/
theorem freesHandle_isFree {hd : Handle} {e : Event} (h : freesHandle hd e = true) :
    isFreeEvent e = true := by
  cases e <;> simp_all [freesHandle, isFreeEvent]

/-- Builds the shape witness for a result produced by one cleanup call. -/
theorem shape_of_cleanup {code : Int} {hs : Handles} {cell : XCell} {info : Int}
    {hih : List Int} {tr : List Event}
    (h1 : List.all tr (fun e => !isFreeEvent e) = true)
    (h2 : List.all tr (fun e => !isStreamDestroy e) = true)
    (h3 : ∀ hd, Event.alloc hd ∈ tr → handleState hs hd = HState.alloc)
    (h4 : Event.decompCall ∈ tr →
      ∃ post, tr = computePre ++ Event.decompCall :: post ∧
        List.all post (fun e => !isArrayBuild e) = true) :
    ∃ tr0 hs2,
      (cleanup code hs cell info hih tr).trace = tr0 ++ cleanupEvents hs2 ∧
      List.all tr0 (fun e => !isFreeEvent e) = true ∧
      List.all tr0 (fun e => !isStreamDestroy e) = true ∧
      (∀ hd, Event.alloc hd ∈ tr0 → handleState hs2 hd = HState.alloc) ∧
      (Event.decompCall ∈ tr0 →
        ∃ post, tr0 = computePre ++ Event.decompCall :: post ∧
          List.all post (fun e => !isArrayBuild e) = true) :=
  ⟨tr, hs, rfl, h1, h2, h3, h4⟩

/-- Structure of every `gpuLinearSolverBatched` activation: the trace is some
prefix followed by exactly one cleanup block; the prefix contains no free and
no stream-destruction event; every handle with an allocation event in the
prefix is still live at teardown; and if the batched compute was invoked, the
prefix opens with the fixed pre-compute sequence (streams, allocations, both
transfers, the three pointer-array builds, the three synchronisations)
followed by the compute call, and no transfer or array build follows the
compute call. -/
theorem gpu_shape (env : GpuEnv) (n bc : Int) :
    ∃ tr0 hs,
      (gpuLinearSolverBatched env n bc).trace = tr0 ++ cleanupEvents hs ∧
      List.all tr0 (fun e => !isFreeEvent e) = true ∧
      List.all tr0 (fun e => !isStreamDestroy e) = true ∧
      (∀ hd, Event.alloc hd ∈ tr0 → handleState hs hd = HState.alloc) ∧
      (Event.decompCall ∈ tr0 →
        ∃ post, tr0 = computePre ++ Event.decompCall :: post ∧
          List.all post (fun e => !isArrayBuild e) = true) := by
  simp only [gpuLinearSolverBatched]
  by_cases g1 : env.allocX ≠ 0
  · rw [if_pos g1]
    exact shape_of_cleanup (by decide) (by decide) (by decide) (fun h => absurd h (by decide))
  rw [if_neg g1]
  by_cases g2 : env.allocInfo ≠ 0
  · rw [if_pos g2]
    exact shape_of_cleanup (by decide) (by decide) (by decide) (fun h => absurd h (by decide))
  rw [if_neg g2]
  by_cases g3 : env.allocDA ≠ 0
  · rw [if_pos g3]
    exact shape_of_cleanup (by decide) (by decide) (by decide) (fun h => absurd h (by decide))
  rw [if_neg g3]
  by_cases g4 : env.allocDB ≠ 0
  · rw [if_pos g4]
    exact shape_of_cleanup (by decide) (by decide) (by decide) (fun h => absurd h (by decide))
  rw [if_neg g4]
  by_cases g5 : env.allocIpiv ≠ 0
  · rw [if_pos g5]
    exact shape_of_cleanup (by decide) (by decide) (by decide) (fun h => absurd h (by decide))
  rw [if_neg g5]
  by_cases g6 : env.allocDinfo ≠ 0
  · rw [if_pos g6]
    exact shape_of_cleanup (by decide) (by decide) (by decide) (fun h => absurd h (by decide))
  rw [if_neg g6]
  by_cases g7 : env.allocArrA ≠ 0
  · rw [if_pos g7]
    exact shape_of_cleanup (by decide) (by decide) (by decide) (fun h => absurd h (by decide))
  rw [if_neg g7]
  by_cases g8 : env.allocArrB ≠ 0
  · rw [if_pos g8]
    exact shape_of_cleanup (by decide) (by decide) (by decide) (fun h => absurd h (by decide))
  rw [if_neg g8]
  by_cases g9 : env.allocArrIpiv ≠ 0
  · rw [if_pos g9]
    exact shape_of_cleanup (by decide) (by decide) (by decide) (fun h => absurd h (by decide))
  rw [if_neg g9]
  by_cases g10 : env.setMatA ≠ 0
  · rw [if_pos g10]
    exact shape_of_cleanup (by decide) (by decide) (by decide) (fun h => absurd h (by decide))
  rw [if_neg g10]
  by_cases g11 : env.setMatB ≠ 0
  · rw [if_pos g11]
    exact shape_of_cleanup (by decide) (by decide) (by decide) (fun h => absurd h (by decide))
  rw [if_neg g11]
  by_cases g12 : env.sync0 ≠ 0
  · rw [if_pos g12]
    exact shape_of_cleanup (by decide) (by decide) (by decide) (fun h => absurd h (by decide))
  rw [if_neg g12]
  by_cases g13 : env.sync1 ≠ 0
  · rw [if_pos g13]
    exact shape_of_cleanup (by decide) (by decide) (by decide) (fun h => absurd h (by decide))
  rw [if_neg g13]
  by_cases g14 : env.sync2 ≠ 0
  · rw [if_pos g14]
    exact shape_of_cleanup (by decide) (by decide) (by decide) (fun h => absurd h (by decide))
  rw [if_neg g14]
  by_cases g15 : env.getVec ≠ 0
  · rw [if_pos g15]
    rcases driver_trace_cases env.driver n 1 (magma_roundup n 32) (magma_roundup n 32) bc
        env.dinfoInit with ⟨k, hk⟩ | hk | hk | hk
    · rw [hk]
      exact shape_of_cleanup (by simp [isFreeEvent]) (by simp [isStreamDestroy])
        (fun hd _ => by cases hd <;> rfl) (fun h => by simp at h)
    · rw [hk]
      exact shape_of_cleanup (by decide) (by decide) (fun hd _ => by cases hd <;> rfl)
        (fun h => by simp at h)
    · rw [hk]
      exact shape_of_cleanup (by decide) (by decide) (fun hd _ => by cases hd <;> rfl)
        (fun _ => ⟨_, rfl, by decide⟩)
    · rw [hk]
      exact shape_of_cleanup (by decide) (by decide) (fun hd _ => by cases hd <;> rfl)
        (fun _ => ⟨_, rfl, by decide⟩)
  rw [if_neg g15]
  by_cases g16 : env.getMat ≠ 0
  · rw [if_pos g16]
    rcases driver_trace_cases env.driver n 1 (magma_roundup n 32) (magma_roundup n 32) bc
        env.dinfoInit with ⟨k, hk⟩ | hk | hk | hk
    · rw [hk]
      exact shape_of_cleanup (by simp [isFreeEvent]) (by simp [isStreamDestroy])
        (fun hd _ => by cases hd <;> rfl) (fun h => by simp at h)
    · rw [hk]
      exact shape_of_cleanup (by decide) (by decide) (fun hd _ => by cases hd <;> rfl)
        (fun h => by simp at h)
    · rw [hk]
      exact shape_of_cleanup (by decide) (by decide) (fun hd _ => by cases hd <;> rfl)
        (fun _ => ⟨_, rfl, by decide⟩)
    · rw [hk]
      exact shape_of_cleanup (by decide) (by decide) (fun hd _ => by cases hd <;> rfl)
        (fun _ => ⟨_, rfl, by decide⟩)
  rw [if_neg g16]
  by_cases g17 : env.syncInfo ≠ 0
  · rw [if_pos g17]
    rcases driver_trace_cases env.driver n 1 (magma_roundup n 32) (magma_roundup n 32) bc
        env.dinfoInit with ⟨k, hk⟩ | hk | hk | hk
    · rw [hk]
      exact shape_of_cleanup (by simp [isFreeEvent]) (by simp [isStreamDestroy])
        (fun hd _ => by cases hd <;> rfl) (fun h => by simp at h)
    · rw [hk]
      exact shape_of_cleanup (by decide) (by decide) (fun hd _ => by cases hd <;> rfl)
        (fun h => by simp at h)
    · rw [hk]
      exact shape_of_cleanup (by decide) (by decide) (fun hd _ => by cases hd <;> rfl)
        (fun _ => ⟨_, rfl, by decide⟩)
    · rw [hk]
      exact shape_of_cleanup (by decide) (by decide) (fun hd _ => by cases hd <;> rfl)
        (fun _ => ⟨_, rfl, by decide⟩)
  rw [if_neg g17]
  by_cases g18 : firstFailure (linearSolverSLU_batched env.driver n 1 (magma_roundup n 32)
      (magma_roundup n 32) bc env.dinfoInit).dinfoMem ≠ none
  · rw [if_pos g18]
    rcases driver_trace_cases env.driver n 1 (magma_roundup n 32) (magma_roundup n 32) bc
        env.dinfoInit with ⟨k, hk⟩ | hk | hk | hk
    · rw [hk]
      exact shape_of_cleanup (by simp [isFreeEvent]) (by simp [isStreamDestroy])
        (fun hd _ => by cases hd <;> rfl) (fun h => by simp at h)
    · rw [hk]
      exact shape_of_cleanup (by decide) (by decide) (fun hd _ => by cases hd <;> rfl)
        (fun h => by simp at h)
    · rw [hk]
      exact shape_of_cleanup (by decide) (by decide) (fun hd _ => by cases hd <;> rfl)
        (fun _ => ⟨_, rfl, by decide⟩)
    · rw [hk]
      exact shape_of_cleanup (by decide) (by decide) (fun hd _ => by cases hd <;> rfl)
        (fun _ => ⟨_, rfl, by decide⟩)
  rw [if_neg g18]
  by_cases g19 : (linearSolverSLU_batched env.driver n 1 (magma_roundup n 32)
      (magma_roundup n 32) bc env.dinfoInit).info ≠ 0
  · rw [if_pos g19]
    rcases driver_trace_cases env.driver n 1 (magma_roundup n 32) (magma_roundup n 32) bc
        env.dinfoInit with ⟨k, hk⟩ | hk | hk | hk
    · rw [hk]
      exact shape_of_cleanup (by simp [isFreeEvent]) (by simp [isStreamDestroy])
        (fun hd _ => by cases hd <;> rfl) (fun h => by simp at h)
    · rw [hk]
      exact shape_of_cleanup (by decide) (by decide) (fun hd _ => by cases hd <;> rfl)
        (fun h => by simp at h)
    · rw [hk]
      exact shape_of_cleanup (by decide) (by decide) (fun hd _ => by cases hd <;> rfl)
        (fun _ => ⟨_, rfl, by decide⟩)
    · rw [hk]
      exact shape_of_cleanup (by decide) (by decide) (fun hd _ => by cases hd <;> rfl)
        (fun _ => ⟨_, rfl, by decide⟩)
  rw [if_neg g19]
  by_cases g20 : env.syncResult ≠ 0
  · rw [if_pos g20]
    rcases driver_trace_cases env.driver n 1 (magma_roundup n 32) (magma_roundup n 32) bc
        env.dinfoInit with ⟨k, hk⟩ | hk | hk | hk
    · rw [hk]
      exact shape_of_cleanup (by simp [isFreeEvent]) (by simp [isStreamDestroy])
        (fun hd _ => by cases hd <;> rfl) (fun h => by simp at h)
    · rw [hk]
      exact shape_of_cleanup (by decide) (by decide) (fun hd _ => by cases hd <;> rfl)
        (fun h => by simp at h)
    · rw [hk]
      exact shape_of_cleanup (by decide) (by decide) (fun hd _ => by cases hd <;> rfl)
        (fun _ => ⟨_, rfl, by decide⟩)
    · rw [hk]
      exact shape_of_cleanup (by decide) (by decide) (fun hd _ => by cases hd <;> rfl)
        (fun _ => ⟨_, rfl, by decide⟩)
  rw [if_neg g20]
  rcases driver_trace_cases env.driver n 1 (magma_roundup n 32) (magma_roundup n 32) bc
      env.dinfoInit with ⟨k, hk⟩ | hk | hk | hk
  · rw [hk]
    exact shape_of_cleanup (by simp [isFreeEvent]) (by simp [isStreamDestroy])
      (fun hd _ => by cases hd <;> rfl) (fun h => by simp at h)
  · rw [hk]
    exact shape_of_cleanup (by decide) (by decide) (fun hd _ => by cases hd <;> rfl)
      (fun h => by simp at h)
  · rw [hk]
    exact shape_of_cleanup (by decide) (by decide) (fun hd _ => by cases hd <;> rfl)
      (fun _ => ⟨_, rfl, by decide⟩)
  · rw [hk]
    exact shape_of_cleanup (by decide) (by decide) (fun hd _ => by cases hd <;> rfl)
      (fun _ => ⟨_, rfl, by decide⟩)

set_option maxHeartbeats 800000 in
/-- Claim C9 as amended: a call is deterministic — equal inputs and equal
collaborator behaviour give identical results — and the unified cleanup block
runs exactly once on every exit path, freeing each of the eight tracked
handles exactly once and freeing every successfully allocated handle while it
is still live; the three created streams, however, are never destroyed, and
the host result buffer is handed to the caller rather than freed. -/
theorem cleanup_releases (env : GpuEnv) (n bc : Int) (hd : Handle) :
    (List.countP (freesHandle hd) (gpuLinearSolverBatched env n bc).trace = 1 ∧
     (Event.alloc hd ∈ (gpuLinearSolverBatched env n bc).trace →
       Event.free hd HState.alloc ∈ (gpuLinearSolverBatched env n bc).trace) ∧
     List.all (gpuLinearSolverBatched env n bc).trace
       (fun e => !isStreamDestroy e) = true) ∧
    (∀ env2 n2 bc2, env = env2 → n = n2 → bc = bc2 →
      gpuLinearSolverBatched env n bc = gpuLinearSolverBatched env2 n2 bc2) := by
  refine ⟨?_, fun env2 n2 bc2 he hn hb => by rw [he, hn, hb]⟩
  obtain ⟨tr0, hs, htr, hNoFree, hNoDestroy, hAllocState, -⟩ := gpu_shape env n bc
  rw [htr]
  have h0 : List.countP (freesHandle hd) tr0 = 0 := by
    rw [List.countP_eq_zero]
    intro e he hfe
    have hall := List.all_eq_true.mp hNoFree e he
    rw [freesHandle_isFree hfe] at hall
    exact absurd hall (by decide)
  refine ⟨?_, ?_, ?_⟩
  · rw [List.countP_append, countP_cleanupEvents, h0]
  · intro hmem
    rcases List.mem_append.mp hmem with hin | hin
    · have hstate := hAllocState hd hin
      have hmem2 := free_state_mem_cleanupEvents hd hs
      rw [hstate] at hmem2
      exact List.mem_append.mpr (Or.inr hmem2)
    · exact absurd hin (alloc_not_mem_cleanupEvents hd hs)
  · rw [List.all_append, hNoDestroy, cleanupEvents_all_not_destroy]
    rfl

/-- Claim C9 amended witness: the cleanup contract applied to the d_A handle
of a fully successful call, with the allocation hypothesis discharged. -/
theorem cleanup_releases_witness :
    ((List.countP (freesHandle Handle.dA) (gpuLinearSolverBatched envAllOk 1 1).trace = 1 ∧
      (Event.alloc Handle.dA ∈ (gpuLinearSolverBatched envAllOk 1 1).trace →
        Event.free Handle.dA HState.alloc ∈ (gpuLinearSolverBatched envAllOk 1 1).trace) ∧
      List.all (gpuLinearSolverBatched envAllOk 1 1).trace
        (fun e => !isStreamDestroy e) = true) ∧
     (∀ env2 n2 bc2, envAllOk = env2 → (1 : Int) = n2 → (1 : Int) = bc2 →
       gpuLinearSolverBatched envAllOk 1 1 = gpuLinearSolverBatched env2 n2 bc2)) ∧
    Event.free Handle.dA HState.alloc ∈ (gpuLinearSolverBatched envAllOk 1 1).trace :=
  ⟨cleanup_releases envAllOk 1 1 Handle.dA,
   (cleanup_releases envAllOk 1 1 Handle.dA).1.2.1 (by decide)⟩

/-! ### Claim C8 -/

/-- The events before the compute call of a shaped trace are exactly the fixed
pre-compute sequence. -/
theorem beforeCompute_computePre (l : List Event) :
    beforeCompute (computePre ++ Event.decompCall :: l) = computePre := by
  simp [beforeCompute, computePre, List.takeWhile_cons]

/-- In a shaped trace whose tail holds no transfer or array build, a transfer
or array-build event occurs exactly when it occurs in the pre-compute
sequence. -/
theorem mem_compute_shape {l : List Event}
    (hl : List.all l (fun e => !isArrayBuild e) = true)
    (e : Event) (he : isArrayBuild e = true) :
    (e ∈ computePre ++ Event.decompCall :: l) ↔ e ∈ computePre := by
  constructor
  · intro hmem
    rcases List.mem_append.mp hmem with h1 | h1
    · exact h1
    · rcases List.mem_cons.mp h1 with h2 | h2
      · rw [h2] at he
        exact absurd he (by decide)
      · have hall := List.all_eq_true.mp hl e h2
        rw [he] at hall
        exact absurd hall (by decide)
  · intro h1
    exact List.mem_append.mpr (Or.inl h1)

/-- Claim C8: in every execution that reaches the batched compute, the compute
call is preceded by synchronisation barriers on all three streams, and each
pointer-array construction runs on the very stream that carried that buffer's
transfer: the A array build and A transfer on stream 0, the B array build and
B transfer on stream 1, the pivot array build on the third stream (2). -/
theorem compute_ordering (env : GpuEnv) (n bc : Int)
    (h : Event.decompCall ∈ (gpuLinearSolverBatched env n bc).trace) :
    (Event.sync 0 ∈ beforeCompute (gpuLinearSolverBatched env n bc).trace ∧
     Event.sync 1 ∈ beforeCompute (gpuLinearSolverBatched env n bc).trace ∧
     Event.sync 2 ∈ beforeCompute (gpuLinearSolverBatched env n bc).trace) ∧
    (∀ s, Event.setMatrix Buf.a s ∈ (gpuLinearSolverBatched env n bc).trace ↔ s = 0) ∧
    (∀ s, Event.setPtr Buf.a s ∈ (gpuLinearSolverBatched env n bc).trace ↔ s = 0) ∧
    (∀ s, Event.setMatrix Buf.b s ∈ (gpuLinearSolverBatched env n bc).trace ↔ s = 1) ∧
    (∀ s, Event.setPtr Buf.b s ∈ (gpuLinearSolverBatched env n bc).trace ↔ s = 1) ∧
    (∀ s, Event.setPtr Buf.ipiv s ∈ (gpuLinearSolverBatched env n bc).trace ↔ s = 2) := by
  obtain ⟨tr0, hs, htr, hNoFree, hNoDestroy, hAllocState, hDecomp⟩ := gpu_shape env n bc
  rw [htr] at h ⊢
  have hin : Event.decompCall ∈ tr0 := by
    rcases List.mem_append.mp h with hin | hin
    · exact hin
    · exact absurd hin (decompCall_not_mem_cleanupEvents hs)
  obtain ⟨post, hpost_eq, hpost_all⟩ := hDecomp hin
  rw [hpost_eq]
  rw [List.append_assoc, List.cons_append]
  have hl2 : List.all (post ++ cleanupEvents hs) (fun e => !isArrayBuild e) = true := by
    rw [List.all_append, hpost_all, cleanupEvents_all_not_build]
    rfl
  refine ⟨?_, ?_, ?_, ?_, ?_, ?_⟩
  · rw [beforeCompute_computePre]
    exact ⟨by decide, by decide, by decide⟩
  · intro s
    rw [mem_compute_shape hl2 (Event.setMatrix Buf.a s) rfl]
    constructor
    · intro hmem
      simpa [computePre] using hmem
    · rintro rfl
      decide
  · intro s
    rw [mem_compute_shape hl2 (Event.setPtr Buf.a s) rfl]
    constructor
    · intro hmem
      simpa [computePre] using hmem
    · rintro rfl
      decide
  · intro s
    rw [mem_compute_shape hl2 (Event.setMatrix Buf.b s) rfl]
    constructor
    · intro hmem
      simpa [computePre] using hmem
    · rintro rfl
      decide
  · intro s
    rw [mem_compute_shape hl2 (Event.setPtr Buf.b s) rfl]
    constructor
    · intro hmem
      simpa [computePre] using hmem
    · rintro rfl
      decide
  · intro s
    rw [mem_compute_shape hl2 (Event.setPtr Buf.ipiv s) rfl]
    constructor
    · intro hmem
      simpa [computePre] using hmem
    · rintro rfl
      decide

/-- Claim C8 witness: a fully successful call reaches the compute step, and
the barrier and stream-assignment properties hold for its trace. -/
theorem compute_ordering_witness :
    Event.decompCall ∈ (gpuLinearSolverBatched envAllOk 1 1).trace ∧
    ((Event.sync 0 ∈ beforeCompute (gpuLinearSolverBatched envAllOk 1 1).trace ∧
      Event.sync 1 ∈ beforeCompute (gpuLinearSolverBatched envAllOk 1 1).trace ∧
      Event.sync 2 ∈ beforeCompute (gpuLinearSolverBatched envAllOk 1 1).trace) ∧
     (∀ s, Event.setMatrix Buf.a s ∈ (gpuLinearSolverBatched envAllOk 1 1).trace ↔ s = 0) ∧
     (∀ s, Event.setPtr Buf.a s ∈ (gpuLinearSolverBatched envAllOk 1 1).trace ↔ s = 0) ∧
     (∀ s, Event.setMatrix Buf.b s ∈ (gpuLinearSolverBatched envAllOk 1 1).trace ↔ s = 1) ∧
     (∀ s, Event.setPtr Buf.b s ∈ (gpuLinearSolverBatched envAllOk 1 1).trace ↔ s = 1) ∧
     (∀ s, Event.setPtr Buf.ipiv s ∈ (gpuLinearSolverBatched envAllOk 1 1).trace ↔ s = 2)) :=
  ⟨by decide, compute_ordering envAllOk 1 1 (by decide)⟩
